import Mathlib

/-!
Verification of the Metropolia-AI-FAQ Flask service (`app.py`).

The service is a single request handler `/ask` plus a health endpoint.
We give a shallow embedding of the handler:

* JSON values are modelled by `JsonVal`, with Python truthiness `pyTruthy`.
* Python `str.strip()` is modelled by `pyStrip` (drop whitespace characters
  from both ends of the character sequence); Python `len` on a string counts
  code points, modelled by `pyLen` (the length of the character list).
* The outcome of the single outbound OpenAI chat-completion call is an
  oracle `upstream : Except String String`: `.ok content` is the message
  content extracted by `resp.choices[0].message.content`, `.error e` stands
  for any exception raised inside the `try` block of `ask_model`.
* A handler outcome records the HTTP status, the JSON body, and the trace of
  outbound API calls made while handling the request.
-/

/-- JSON values as delivered by the Flask `request.json` property. Object keys are
assumed distinct, as produced by JSON parsing. -/
inductive JsonVal where
  | null
  | str (s : String)
  | num (n : Int)
  | boolean (b : Bool)
  | arr (elems : List JsonVal)
  | obj (fields : List (String × JsonVal))

/-- Python truthiness of a JSON value (`bool(v)`): `None`, `""`, `0`,
`False`, `[]` and `{}` are falsy, everything else is truthy. -/
def pyTruthy : JsonVal → Bool
  | .null => false
  | .str s => !s.data.isEmpty
  | .num n => n != 0
  | .boolean b => b
  | .arr elems => !elems.isEmpty
  | .obj fields => !fields.isEmpty

/-- `data.get(key)` on a JSON object: the value bound to `key`, or `None`
(`.null`) when the key is absent. -/
def getField (fields : List (String × JsonVal)) (key : String) : JsonVal :=
  match fields.find? (fun p => p.1 == key) with
  | some p => p.2
  | none => .null

/-- Python `s.strip()`: remove leading and trailing whitespace characters.
(Python strips a slightly larger Unicode whitespace class; the difference is
irrelevant to the properties proved here.) -/
def pyStrip (s : String) : String :=
  ⟨((s.data.dropWhile Char.isWhitespace).reverse.dropWhile Char.isWhitespace).reverse⟩

/-- Python `len(s)` on a string: the number of characters (code points),
not bytes. -/
def pyLen (s : String) : Nat := s.data.length

/-- `(v or "").strip()` from `app.py` lines 71-72: a falsy value (null,
missing, empty string) is coerced to `""`; a truthy string is stripped; a
truthy non-string has no `.strip` attribute and raises `AttributeError`. -/
def normalizeField (v : JsonVal) : Except String String :=
  if pyTruthy v then
    match v with
    | .str s => .ok (pyStrip s)
    | _ => .error "AttributeError: strip"
  else
    .ok ""

/-- `TEXT_MAX_LENGTH` from `app.py`. -/
def TEXT_MAX_LENGTH : Nat := 5000

/-- `QUESTION_MAX_LENGTH` from `app.py`. -/
def QUESTION_MAX_LENGTH : Nat := 300

/-- `TEXT_MIN_LENGTH` from `app.py`. -/
def TEXT_MIN_LENGTH : Nat := 20

/-- `QUESTION_MIN_LENGTH` from `app.py`. -/
def QUESTION_MIN_LENGTH : Nat := 3

/-- `SYSTEM_PROMPT` from `app.py`. -/
def SYSTEM_PROMPT : String :=
  "You are an AI assistant designed to help students and staff at Metropolia UAS.\nYour role is to help with course materials, lecture notes, and educational questions.\nProvide clear, concise, and helpful answers. If the question is outside the scope of the provided text, say so.\nKeep responses focused and structured."

/-- The validation error messages of the `/ask` handler. -/
def MSG_TEXT_EMPTY : String := "Please provide lecture text."

/-- Message for an empty question. -/
def MSG_QUESTION_EMPTY : String := "Please enter a question."

/-- Message for text below `TEXT_MIN_LENGTH`. -/
def MSG_TEXT_SHORT : String := "Lecture text is too short. Please provide more content."

/-- Message for a question below `QUESTION_MIN_LENGTH`. -/
def MSG_QUESTION_SHORT : String := "Question is too short. Please be more specific."

/-- Message for text above `TEXT_MAX_LENGTH` (an f-string embedding the limit). -/
def MSG_TEXT_LONG : String :=
  "Lecture text exceeds maximum length (" ++ toString TEXT_MAX_LENGTH ++ " characters). Please shorten it."

/-- Message for a question above `QUESTION_MAX_LENGTH` (an f-string embedding the limit). -/
def MSG_QUESTION_LONG : String :=
  "Question exceeds maximum length (" ++ toString QUESTION_MAX_LENGTH ++ " characters). Please shorten it."

/-- The generic message returned on any unexpected failure. -/
def GENERIC_ERROR_MESSAGE : String := "An error occurred. Please try again later."

/-- The parameters of one outbound `client.chat.completions.create` call. -/
structure ChatRequest where
  model : String
  systemContent : String
  userContent : String
  max_tokens : Nat
  temperature : ℚ
deriving DecidableEq, Repr

/-- The chat-completion request built by `ask_model` for a given prompt:
fixed model identifier, the constant system prompt, the user prompt,
the token budget (default 300) and temperature 0.2. -/
def ask_model_request (prompt : String) (max_tokens : Nat := 300) : ChatRequest :=
  { model := "gpt-4o-mini"
    systemContent := SYSTEM_PROMPT
    userContent := prompt
    max_tokens := max_tokens
    temperature := 2 / 10 }

/-- `ask_model` from `app.py`: on success the message content is stripped of
surrounding whitespace; any exception is re-raised as a generic
`Exception("API Error: " + str(e))`. -/
def ask_model (upstream : Except String String) : Except String String :=
  match upstream with
  | .ok content => .ok (pyStrip content)
  | .error e => .error ("API Error: " ++ e)

/-- The observable outcome of handling one request: HTTP status code, JSON
body, and the trace of outbound chat-completion calls made. -/
structure HandlerResult where
  status : Nat
  body : JsonVal
  apiCalls : List ChatRequest

/-- `jsonify({"error": msg}), code` with no outbound call. -/
def errorResponse (status : Nat) (msg : String) : HandlerResult :=
  { status := status, body := .obj [("error", .str msg)], apiCalls := [] }

/-- The body of a POST `/ask` request as seen by `request.json`:
`malformed` when the body is not valid JSON (the property raises, and the
exception is caught by the outer `except` of the handler), otherwise the parsed
JSON value. -/
inductive RequestBody where
  | malformed
  | json (v : JsonVal)

/-- The prompt composed by the handler (`app.py` line 88). -/
def promptTemplate (text question : String) : String :=
  "Based on the following course material, please answer the question.\n\nCourse Material:\n" ++
    text ++ "\n\nQuestion: " ++ question ++ "\n\nProvide a clear and concise answer."

/-- The `/ask` handler after successful normalization of both fields
(`app.py` lines 75-91): the six ordered validation checks, then the prompt
composition and the single adapter call; an adapter error is caught by the
outer `except` and turned into the generic 500. -/
def askBody (text question : String) (upstream : Except String String) : HandlerResult :=
  if text = "" then errorResponse 400 MSG_TEXT_EMPTY
  else if question = "" then errorResponse 400 MSG_QUESTION_EMPTY
  else if pyLen text < TEXT_MIN_LENGTH then errorResponse 400 MSG_TEXT_SHORT
  else if pyLen question < QUESTION_MIN_LENGTH then errorResponse 400 MSG_QUESTION_SHORT
  else if pyLen text > TEXT_MAX_LENGTH then errorResponse 400 MSG_TEXT_LONG
  else if pyLen question > QUESTION_MAX_LENGTH then errorResponse 400 MSG_QUESTION_LONG
  else
    match ask_model upstream with
    | .ok answer =>
        { status := 200
          body := .obj [("answer", .str answer)]
          apiCalls := [ask_model_request (promptTemplate text question)] }
    | .error _ =>
        { status := 500
          body := .obj [("error", .str GENERIC_ERROR_MESSAGE)]
          apiCalls := [ask_model_request (promptTemplate text question)] }

/-- The `/ask` handler (`app.py` lines 61-97). A malformed body makes
`request.json` raise; a non-object JSON value makes `data.get` raise; a
truthy non-string field makes `.strip()` raise. Each of these exceptions is
caught by the outer `except` and answered with the generic 500. -/
def ask (body : RequestBody) (upstream : Except String String) : HandlerResult :=
  match body with
  | .malformed => errorResponse 500 GENERIC_ERROR_MESSAGE
  | .json v =>
    match v with
    | .obj fields =>
      match normalizeField (getField fields "text") with
      | .error _ => errorResponse 500 GENERIC_ERROR_MESSAGE
      | .ok text =>
        match normalizeField (getField fields "question") with
        | .error _ => errorResponse 500 GENERIC_ERROR_MESSAGE
        | .ok question => askBody text question upstream
    | _ => errorResponse 500 GENERIC_ERROR_MESSAGE

/-- The `/health` handler (`app.py` lines 99-102). It reads no state; the
ignored argument stands for the ambient upstream state, making the
independence explicit. -/
def health (_upstreamState : Except String String) : HandlerResult :=
  { status := 200, body := .obj [("status", .str "ok")], apiCalls := [] }

/-- Specification-side list of the six validation checks in the order the
spec states them, paired with their messages. -/
def validationChecks (text question : String) : List (Bool × String) :=
  [ (text == "", MSG_TEXT_EMPTY),
    (question == "", MSG_QUESTION_EMPTY),
    (decide (pyLen text < TEXT_MIN_LENGTH), MSG_TEXT_SHORT),
    (decide (pyLen question < QUESTION_MIN_LENGTH), MSG_QUESTION_SHORT),
    (decide (pyLen text > TEXT_MAX_LENGTH), MSG_TEXT_LONG),
    (decide (pyLen question > QUESTION_MAX_LENGTH), MSG_QUESTION_LONG) ]

/-- The message of the first failing check, if any (fail-fast semantics). -/
def firstFailure : List (Bool × String) → Option String
  | [] => none
  | (b, m) :: rest => if b then some m else firstFailure rest

/-- Substring test at the character level: `listHasPre needle hay` holds when
`needle` is an initial segment of `hay`. -/
def listHasPre : List Char → List Char → Bool
  | [], _ => true
  | _ :: _, [] => false
  | a :: as, b :: bs => a == b && listHasPre as bs

/-- `listHasSub needle hay`: `needle` occurs contiguously inside `hay`. -/
def listHasSub (needle : List Char) : List Char → Bool
  | [] => needle.isEmpty
  | b :: bs => listHasPre needle (b :: bs) || listHasSub needle bs

/-- `strContains s sub`: the string `sub` occurs inside `s`. -/
def strContains (s sub : String) : Bool := listHasSub sub.data s.data

lemma string_eq_empty_iff (s : String) : s = "" ↔ s.data = [] := by
  constructor
  · intro h; subst h; rfl
  · intro h
    cases s with
    | mk data => simp only at h; subst h; rfl

lemma pyLen_eq_zero_iff (s : String) : pyLen s = 0 ↔ s = "" := by
  rw [pyLen, List.length_eq_zero, string_eq_empty_iff]

lemma normalizeField_str (s : String) : normalizeField (.str s) = .ok (pyStrip s) := by
  unfold normalizeField
  by_cases h : s.data = []
  · have hs : s = "" := (string_eq_empty_iff s).mpr h
    subst hs
    rfl
  · simp [pyTruthy, h]

lemma ask_obj_eq (fields : List (String × JsonVal)) (text question : String)
    (upstream : Except String String)
    (ht : normalizeField (getField fields "text") = .ok text)
    (hq : normalizeField (getField fields "question") = .ok question) :
    ask (.json (.obj fields)) upstream = askBody text question upstream := by
  simp only [ask]
  rw [ht, hq]

lemma firstFailure_validation (text question : String) :
    firstFailure (validationChecks text question) =
      if text = "" then some MSG_TEXT_EMPTY
      else if question = "" then some MSG_QUESTION_EMPTY
      else if pyLen text < TEXT_MIN_LENGTH then some MSG_TEXT_SHORT
      else if pyLen question < QUESTION_MIN_LENGTH then some MSG_QUESTION_SHORT
      else if pyLen text > TEXT_MAX_LENGTH then some MSG_TEXT_LONG
      else if pyLen question > QUESTION_MAX_LENGTH then some MSG_QUESTION_LONG
      else none := by
  simp [validationChecks, firstFailure, beq_iff_eq]

lemma askBody_eq_spec (text question : String) (upstream : Except String String) :
    askBody text question upstream =
      match firstFailure (validationChecks text question) with
      | some m => errorResponse 400 m
      | none =>
        match ask_model upstream with
        | .ok answer =>
            { status := 200
              body := .obj [("answer", .str answer)]
              apiCalls := [ask_model_request (promptTemplate text question)] }
        | .error _ =>
            { status := 500
              body := .obj [("error", .str GENERIC_ERROR_MESSAGE)]
              apiCalls := [ask_model_request (promptTemplate text question)] } := by
  rw [firstFailure_validation]
  unfold askBody
  split_ifs <;> rfl

lemma pyStrip_mk_eq (l : List Char) :
    pyStrip ⟨l⟩ = ⟨((l.dropWhile Char.isWhitespace).reverse.dropWhile Char.isWhitespace).reverse⟩ := rfl

lemma pyLen_mk (l : List Char) : pyLen ⟨l⟩ = l.length := rfl

lemma dropWhile_ws_replicate (n : Nat) (c : Char) (hc : c.isWhitespace = false) :
    List.dropWhile Char.isWhitespace (List.replicate n c) = List.replicate n c := by
  cases n with
  | zero => rfl
  | succ m =>
    rw [List.replicate_succ]
    exact List.dropWhile_cons_of_neg (by simp [hc])

lemma pyStrip_replicate (n : Nat) (c : Char) (hc : c.isWhitespace = false) :
    pyStrip ⟨List.replicate n c⟩ = ⟨List.replicate n c⟩ := by
  rw [pyStrip_mk_eq, dropWhile_ws_replicate n c hc, List.reverse_replicate,
    dropWhile_ws_replicate n c hc, List.reverse_replicate]

lemma pyStrip_pad (s : String) :
    pyStrip ⟨' ' :: (s.data ++ [' '])⟩ = pyStrip s := by
  cases s with
  | mk d =>
    rw [pyStrip_mk_eq, pyStrip_mk_eq]
    simp only
    rw [List.dropWhile_cons_of_pos (by decide), List.dropWhile_append]
    by_cases h : (List.dropWhile Char.isWhitespace d).isEmpty
    · rw [if_pos h]
      rw [List.isEmpty_eq_true] at h
      rw [h]
      rfl
    · rw [if_neg h, List.reverse_append]
      simp only [List.reverse_cons, List.reverse_nil, List.nil_append, List.singleton_append]
      rw [List.dropWhile_cons_of_pos (by decide)]

lemma askBody_valid (text question : String) (upstream : Except String String)
    (h1 : 20 ≤ pyLen text) (h2 : pyLen text ≤ 5000)
    (h3 : 3 ≤ pyLen question) (h4 : pyLen question ≤ 300) :
    askBody text question upstream =
      match ask_model upstream with
      | .ok answer =>
          { status := 200
            body := .obj [("answer", .str answer)]
            apiCalls := [ask_model_request (promptTemplate text question)] }
      | .error _ =>
          { status := 500
            body := .obj [("error", .str GENERIC_ERROR_MESSAGE)]
            apiCalls := [ask_model_request (promptTemplate text question)] } := by
  have t_ne : text ≠ "" := fun h => by
    rw [h] at h1
    simp [pyLen] at h1
  have q_ne : question ≠ "" := fun h => by
    rw [h] at h3
    simp [pyLen] at h3
  have n1 : ¬ pyLen text < TEXT_MIN_LENGTH := by unfold TEXT_MIN_LENGTH; omega
  have n2 : ¬ pyLen question < QUESTION_MIN_LENGTH := by unfold QUESTION_MIN_LENGTH; omega
  have n3 : ¬ pyLen text > TEXT_MAX_LENGTH := by unfold TEXT_MAX_LENGTH; omega
  have n4 : ¬ pyLen question > QUESTION_MAX_LENGTH := by unfold QUESTION_MAX_LENGTH; omega
  unfold askBody
  rw [if_neg t_ne, if_neg q_ne, if_neg n1, if_neg n2, if_neg n3, if_neg n4]

lemma normalizeField_nonstring_truthy (v : JsonVal) (hv : pyTruthy v = true)
    (hs : ∀ s, v ≠ JsonVal.str s) :
    normalizeField v = .error "AttributeError: strip" := by
  cases v with
  | null => simp [pyTruthy] at hv
  | str s => exact absurd rfl (hs s)
  | num n => simp [normalizeField, hv]
  | boolean b => simp [normalizeField, hv]
  | arr elems => simp [normalizeField, hv]
  | obj fields => simp [normalizeField, hv]

/-- Claim C9: every GET /health request returns HTTP 200 with body
`(("status", "ok"))`, unconditionally and independently of the upstream state. -/
theorem health_always_ok (upstreamState : Except String String) :
    health upstreamState =
      { status := 200, body := .obj [("status", .str "ok")], apiCalls := [] } := rfl

/-- Claim C8: a POST /ask request whose body is not valid JSON is answered
with status 500 (the parse exception is caught by the outer handler), hence
with a status in (400, 500) and never 200. -/
theorem ask_malformed_body (upstream : Except String String) :
    ask .malformed upstream = errorResponse 500 GENERIC_ERROR_MESSAGE ∧
    ((ask .malformed upstream).status = 400 ∨ (ask .malformed upstream).status = 500) ∧
    (ask .malformed upstream).status ≠ 200 := by
  refine ⟨rfl, Or.inr rfl, ?_⟩
  intro h
  simp [ask, errorResponse] at h

/-- Claim C7: per request the handler makes at most one outbound adapter
call, and a request answered with HTTP 400 makes none. -/
theorem ask_adapter_at_most_once (body : RequestBody) (upstream : Except String String) :
    (ask body upstream).apiCalls.length ≤ 1 ∧
    ((ask body upstream).status = 400 → (ask body upstream).apiCalls = []) := by
  cases body with
  | malformed => simp [ask, errorResponse]
  | json v =>
    cases v with
    | null => simp [ask, errorResponse]
    | str s => simp [ask, errorResponse]
    | num n => simp [ask, errorResponse]
    | boolean b => simp [ask, errorResponse]
    | arr elems => simp [ask, errorResponse]
    | obj fields =>
      rcases ht : normalizeField (getField fields "text") with e | text
      · simp [ask, ht, errorResponse]
      · rcases hq : normalizeField (getField fields "question") with e | question
        · simp [ask, ht, hq, errorResponse]
        · rw [ask_obj_eq fields text question upstream ht hq, askBody_eq_spec]
          rcases hff : firstFailure (validationChecks text question) with _ | m
          · rcases upstream with e | c <;> simp [ask_model]
          · simp [errorResponse]

/-- Witness for C7 at a concrete rejected request. -/
theorem ask_adapter_at_most_once_witness :
    (ask (.json (.obj [("text", JsonVal.str "short"), ("question", JsonVal.str "Why?")]))
        (.ok "x")).apiCalls = [] :=
  (ask_adapter_at_most_once (.json (.obj [("text", JsonVal.str "short"), ("question", JsonVal.str "Why?")]))
    (.ok "x")).2 rfl

/-- Claim C10: a JSON object body whose `text` or `question` is a truthy
non-string value makes `.strip()` raise; the outer handler answers 500 with
the generic message, not a 400 validation message. -/
theorem ask_nonstring_field_500 (fields : List (String × JsonVal)) (upstream : Except String String)
    (h : (pyTruthy (getField fields "text") = true ∧ ∀ s, getField fields "text" ≠ JsonVal.str s) ∨
         (pyTruthy (getField fields "question") = true ∧ ∀ s, getField fields "question" ≠ JsonVal.str s)) :
    ask (.json (.obj fields)) upstream = errorResponse 500 GENERIC_ERROR_MESSAGE := by
  rcases h with ⟨hv, hs⟩ | ⟨hv, hs⟩
  · have he := normalizeField_nonstring_truthy _ hv hs
    simp [ask, he]
  · have he := normalizeField_nonstring_truthy _ hv hs
    rcases ht : normalizeField (getField fields "text") with e | text
    · simp [ask, ht]
    · simp [ask, ht, he]

/-- Witness for C10: a numeric `text` field yields the generic 500. -/
theorem ask_nonstring_field_500_witness :
    ask (.json (.obj [("text", JsonVal.num 5), ("question", JsonVal.str "Why?")])) (.ok "x") =
      errorResponse 500 GENERIC_ERROR_MESSAGE :=
  ask_nonstring_field_500 _ _ (Or.inl ⟨rfl, by intro s h; simp [getField] at h⟩)

/-- Claim C1: after normalization the six validation checks run in the
stated order; the first failing check determines the 400 response (with no
adapter call), the six messages are pairwise distinct, and when no check
fails the response is not a 400. -/
theorem ask_validation_order (fields : List (String × JsonVal)) (text question : String)
    (upstream : Except String String)
    (ht : normalizeField (getField fields "text") = .ok text)
    (hq : normalizeField (getField fields "question") = .ok question) :
    (∀ m, firstFailure (validationChecks text question) = some m →
        ask (.json (.obj fields)) upstream = errorResponse 400 m) ∧
    (firstFailure (validationChecks text question) = none →
        (ask (.json (.obj fields)) upstream).status ≠ 400) ∧
    List.Pairwise (fun a b => a ≠ b)
      [MSG_TEXT_EMPTY, MSG_QUESTION_EMPTY, MSG_TEXT_SHORT,
       MSG_QUESTION_SHORT, MSG_TEXT_LONG, MSG_QUESTION_LONG] := by
  rw [ask_obj_eq fields text question upstream ht hq, askBody_eq_spec]
  refine ⟨?_, ?_, by decide⟩
  · intro m hm
    simp [hm]
  · intro hm
    rcases upstream with e | c <;> simp [hm, ask_model]

/-- Witness for C1: a missing `text` field fails the first check. -/
theorem ask_validation_order_witness :
    ask (.json (.obj [("question", JsonVal.str "hi")])) (.ok "a") =
      errorResponse 400 MSG_TEXT_EMPTY :=
  (ask_validation_order [("question", JsonVal.str "hi")] "" "hi" (.ok "a") rfl rfl).1
    MSG_TEXT_EMPTY rfl

/-- Claim C2 (amended): bounds are inclusive. Trimmed lengths exactly
5000/300 pass all checks; trimmed text length 5001 with a question passing
its earlier checks (non-empty, trimmed length at least 3) yields the 400
text-length message, which contains 5000 — with no upper bound needed on
the question, since the text-maximum check precedes the question-maximum
check; trimmed question length 301 with in-bounds text yields the 400
question-length message, which contains 300. -/
theorem ask_length_boundary (fields : List (String × JsonVal)) (text question : String)
    (upstream : Except String String)
    (ht : normalizeField (getField fields "text") = .ok text)
    (hq : normalizeField (getField fields "question") = .ok question) :
    (pyLen text = 5000 → pyLen question = 300 →
        (ask (.json (.obj fields)) upstream).status ≠ 400) ∧
    (pyLen text = 5001 → 3 ≤ pyLen question →
        ask (.json (.obj fields)) upstream = errorResponse 400 MSG_TEXT_LONG ∧
        strContains MSG_TEXT_LONG "5000" = true) ∧
    (pyLen question = 301 → 20 ≤ pyLen text → pyLen text ≤ 5000 →
        ask (.json (.obj fields)) upstream = errorResponse 400 MSG_QUESTION_LONG ∧
        strContains MSG_QUESTION_LONG "300" = true) := by
  rw [ask_obj_eq fields text question upstream ht hq]
  refine ⟨?_, ?_, ?_⟩
  · intro h5000 h300
    rw [askBody_valid text question upstream (by omega) (by omega) (by omega) (by omega)]
    rcases upstream with e | c <;> simp [ask_model]
  · intro h5001 hq3
    refine ⟨?_, by decide⟩
    have t_ne : text ≠ "" := fun h => by rw [h] at h5001; simp [pyLen] at h5001
    have q_ne : question ≠ "" := fun h => by rw [h] at hq3; simp [pyLen] at hq3
    have n1 : ¬ pyLen text < TEXT_MIN_LENGTH := by unfold TEXT_MIN_LENGTH; omega
    have n2 : ¬ pyLen question < QUESTION_MIN_LENGTH := by unfold QUESTION_MIN_LENGTH; omega
    have p3 : pyLen text > TEXT_MAX_LENGTH := by unfold TEXT_MAX_LENGTH; omega
    unfold askBody
    rw [if_neg t_ne, if_neg q_ne, if_neg n1, if_neg n2, if_pos p3]
  · intro h301 ht20 ht5000
    refine ⟨?_, by decide⟩
    have t_ne : text ≠ "" := fun h => by rw [h] at ht20; simp [pyLen] at ht20
    have q_ne : question ≠ "" := fun h => by rw [h] at h301; simp [pyLen] at h301
    have n1 : ¬ pyLen text < TEXT_MIN_LENGTH := by unfold TEXT_MIN_LENGTH; omega
    have n2 : ¬ pyLen question < QUESTION_MIN_LENGTH := by unfold QUESTION_MIN_LENGTH; omega
    have n3 : ¬ pyLen text > TEXT_MAX_LENGTH := by unfold TEXT_MAX_LENGTH; omega
    have p4 : pyLen question > QUESTION_MAX_LENGTH := by unfold QUESTION_MAX_LENGTH; omega
    unfold askBody
    rw [if_neg t_ne, if_neg q_ne, if_neg n1, if_neg n2, if_neg n3, if_pos p4]

/-- Witness for C2 at the inclusive boundary 5000/300. -/
theorem ask_length_boundary_witness :
    (ask (.json (.obj [("text", JsonVal.str ⟨List.replicate 5000 'a'⟩),
        ("question", JsonVal.str ⟨List.replicate 300 'b'⟩)])) (.ok "fine")).status ≠ 400 := by
  have ht : normalizeField (getField [("text", JsonVal.str ⟨List.replicate 5000 'a'⟩),
      ("question", JsonVal.str ⟨List.replicate 300 'b'⟩)] "text") =
      Except.ok ⟨List.replicate 5000 'a'⟩ := by
    show normalizeField (JsonVal.str ⟨List.replicate 5000 'a'⟩) = _
    rw [normalizeField_str, pyStrip_replicate 5000 'a' (by decide)]
  have hq : normalizeField (getField [("text", JsonVal.str ⟨List.replicate 5000 'a'⟩),
      ("question", JsonVal.str ⟨List.replicate 300 'b'⟩)] "question") =
      Except.ok ⟨List.replicate 300 'b'⟩ := by
    show normalizeField (JsonVal.str ⟨List.replicate 300 'b'⟩) = _
    rw [normalizeField_str, pyStrip_replicate 300 'b' (by decide)]
  exact (ask_length_boundary _ _ _ _ ht hq).1
    (by rw [pyLen_mk, List.length_replicate])
    (by rw [pyLen_mk, List.length_replicate])

/-- Counterexample to C2 as frozen: with trimmed text length 5001 but an
empty question, the earlier question-empty check fires, and the 400 message
does not contain the number 5000. -/
theorem ask_length_boundary_cex :
    pyLen (pyStrip ⟨List.replicate 5001 'a'⟩) = 5001 ∧
    ask (.json (.obj [("text", JsonVal.str ⟨List.replicate 5001 'a'⟩),
        ("question", JsonVal.str "")])) (.ok "ans") =
      errorResponse 400 MSG_QUESTION_EMPTY ∧
    strContains MSG_QUESTION_EMPTY "5000" = false := by
  have hstrip := pyStrip_replicate 5001 'a' (by decide)
  have hlen : pyLen (⟨List.replicate 5001 'a'⟩ : String) = 5001 := by
    rw [pyLen_mk, List.length_replicate]
  refine ⟨by rw [hstrip, hlen], ?_, by decide⟩
  have ht : normalizeField (getField [("text", JsonVal.str ⟨List.replicate 5001 'a'⟩),
      ("question", JsonVal.str "")] "text") = Except.ok ⟨List.replicate 5001 'a'⟩ := by
    show normalizeField (JsonVal.str ⟨List.replicate 5001 'a'⟩) = _
    rw [normalizeField_str, hstrip]
  have hq : normalizeField (getField [("text", JsonVal.str ⟨List.replicate 5001 'a'⟩),
      ("question", JsonVal.str "")] "question") = Except.ok "" := by
    show normalizeField (JsonVal.str "") = _
    rfl
  rw [ask_obj_eq _ _ _ _ ht hq]
  have t_ne : (⟨List.replicate 5001 'a'⟩ : String) ≠ "" := fun h => by
    rw [h] at hlen
    simp [pyLen] at hlen
  unfold askBody
  rw [if_neg t_ne, if_pos rfl]

/-- Claim C3: when the adapter raises (any upstream error `e`), a request
that reached the adapter is answered 500 with exactly the generic body; the
whole response is independent of the error text, and every 500 response
carries the generic body, for every request body. -/
theorem ask_upstream_error_masked (fields : List (String × JsonVal)) (text question e : String)
    (ht : normalizeField (getField fields "text") = .ok text)
    (hq : normalizeField (getField fields "question") = .ok question)
    (h1 : 20 ≤ pyLen text) (h2 : pyLen text ≤ 5000)
    (h3 : 3 ≤ pyLen question) (h4 : pyLen question ≤ 300) :
    ask (.json (.obj fields)) (.error e) =
      { status := 500
        body := .obj [("error", .str GENERIC_ERROR_MESSAGE)]
        apiCalls := [ask_model_request (promptTemplate text question)] } ∧
    (∀ (body : RequestBody) (e1 e2 : String),
        ask body (.error e1) = ask body (.error e2)) ∧
    (∀ (body : RequestBody) (upstream : Except String String),
        (ask body upstream).status = 500 →
        (ask body upstream).body = .obj [("error", .str GENERIC_ERROR_MESSAGE)]) := by
  refine ⟨?_, ?_, ?_⟩
  · rw [ask_obj_eq fields text question _ ht hq,
      askBody_valid text question _ h1 h2 h3 h4]
    rfl
  · intro body e1 e2
    cases body with
    | malformed => rfl
    | json v =>
      cases v with
      | null => rfl
      | str s => rfl
      | num n => rfl
      | boolean b => rfl
      | arr elems => rfl
      | obj fs =>
        rcases ht' : normalizeField (getField fs "text") with e' | t'
        · simp [ask, ht']
        · rcases hq' : normalizeField (getField fs "question") with e' | q'
          · simp [ask, ht', hq']
          · rw [ask_obj_eq fs t' q' _ ht' hq', ask_obj_eq fs t' q' _ ht' hq']
            unfold askBody
            split_ifs <;> rfl
  · intro body upstream h
    cases body with
    | malformed => rfl
    | json v =>
      cases v with
      | null => rfl
      | str s => rfl
      | num n => rfl
      | boolean b => rfl
      | arr elems => rfl
      | obj fs =>
        rcases ht' : normalizeField (getField fs "text") with e' | t'
        · simp [ask, ht', errorResponse]
        · rcases hq' : normalizeField (getField fs "question") with e' | q'
          · simp [ask, ht', hq', errorResponse]
          · rw [ask_obj_eq fs t' q' _ ht' hq'] at h ⊢
            rcases upstream with e'' | c
            · unfold askBody at h ⊢
              split_ifs at h ⊢ <;> simp_all [errorResponse, ask_model]
            · unfold askBody at h ⊢
              split_ifs at h ⊢ <;> simp_all [errorResponse, ask_model]

/-- Witness for C3 at a concrete valid request with a failing adapter. -/
theorem ask_upstream_error_masked_witness :
    ask (.json (.obj [("text", JsonVal.str "abcdefghijklmnopqrst"),
        ("question", JsonVal.str "Why?")])) (.error "boom") =
      { status := 500
        body := .obj [("error", .str GENERIC_ERROR_MESSAGE)]
        apiCalls := [ask_model_request (promptTemplate "abcdefghijklmnopqrst" "Why?")] } :=
  (ask_upstream_error_masked [("text", JsonVal.str "abcdefghijklmnopqrst"),
      ("question", JsonVal.str "Why?")] "abcdefghijklmnopqrst" "Why?" "boom" rfl rfl
    (by decide) (by decide) (by decide) (by decide)).1

/-- Claim C4: null and absent fields are coerced to the empty string,
string fields are stripped before any validation runs (the behavior of the
handler depends only on the stripped values), surrounding whitespace never
contributes to length, and lengths count characters, not bytes. -/
theorem ask_field_normalization (s q : String) (upstream : Except String String) :
    getField [] "text" = JsonVal.null ∧
    normalizeField JsonVal.null = Except.ok "" ∧
    normalizeField (JsonVal.str "") = Except.ok "" ∧
    normalizeField (JsonVal.str s) = Except.ok (pyStrip s) ∧
    pyStrip ⟨' ' :: (s.data ++ [' '])⟩ = pyStrip s ∧
    ask (.json (.obj [("text", JsonVal.str s), ("question", JsonVal.str q)])) upstream =
      askBody (pyStrip s) (pyStrip q) upstream ∧
    ask (.json (.obj [("text", JsonVal.null), ("question", JsonVal.str q)])) upstream =
      ask (.json (.obj [("text", JsonVal.str ""), ("question", JsonVal.str q)])) upstream ∧
    pyLen ⟨['ä', 'ö']⟩ = 2 ∧ 'ä'.utf8Size = 2 ∧ 'ö'.utf8Size = 2 := by
  refine ⟨rfl, rfl, rfl, normalizeField_str s, pyStrip_pad s, ?_, ?_, by decide, by decide, by decide⟩
  · exact ask_obj_eq _ (pyStrip s) (pyStrip q) upstream
      (by show normalizeField (JsonVal.str s) = _; exact normalizeField_str s)
      (by show normalizeField (JsonVal.str q) = _; exact normalizeField_str q)
  · rw [ask_obj_eq [("text", JsonVal.null), ("question", JsonVal.str q)] "" (pyStrip q) upstream
        rfl
        (by show normalizeField (JsonVal.str q) = _; exact normalizeField_str q),
      ask_obj_eq [("text", JsonVal.str ""), ("question", JsonVal.str q)] "" (pyStrip q) upstream
        rfl
        (by show normalizeField (JsonVal.str q) = _; exact normalizeField_str q)]

/-- Claim C5 (amended): a validation-passing request with a successful
upstream call is answered 200 with the trimmed model output as the answer;
the answer is non-empty whenever the trimmed model output is non-empty. -/
theorem ask_success_response (fields : List (String × JsonVal)) (text question output : String)
    (ht : normalizeField (getField fields "text") = .ok text)
    (hq : normalizeField (getField fields "question") = .ok question)
    (h1 : 20 ≤ pyLen text) (h2 : pyLen text ≤ 5000)
    (h3 : 3 ≤ pyLen question) (h4 : pyLen question ≤ 300) :
    ask (.json (.obj fields)) (.ok output) =
      { status := 200
        body := .obj [("answer", .str (pyStrip output))]
        apiCalls := [ask_model_request (promptTemplate text question)] } ∧
    (pyStrip output ≠ "" →
      (ask (.json (.obj fields)) (.ok output)).body ≠ .obj [("answer", .str "")]) := by
  have hmain : ask (.json (.obj fields)) (.ok output) =
      { status := 200
        body := .obj [("answer", .str (pyStrip output))]
        apiCalls := [ask_model_request (promptTemplate text question)] } := by
    rw [ask_obj_eq fields text question _ ht hq,
      askBody_valid text question _ h1 h2 h3 h4]
    rfl
  refine ⟨hmain, ?_⟩
  intro hne
  rw [hmain]
  simp [hne]

/-- Witness for C5 at a concrete valid request with a whitespace-padded
model output. -/
theorem ask_success_response_witness :
    ask (.json (.obj [("text", JsonVal.str "abcdefghijklmnopqrst"),
        ("question", JsonVal.str "Why?")])) (.ok " An answer. ") =
      { status := 200
        body := .obj [("answer", .str "An answer.")]
        apiCalls := [ask_model_request (promptTemplate "abcdefghijklmnopqrst" "Why?")] } :=
  (ask_success_response [("text", JsonVal.str "abcdefghijklmnopqrst"),
      ("question", JsonVal.str "Why?")] "abcdefghijklmnopqrst" "Why?" " An answer. " rfl rfl
    (by decide) (by decide) (by decide) (by decide)).1

/-- Counterexample to C5 as frozen: an empty model output makes a
validation-passing request succeed with HTTP 200 and an empty answer, so
the answer is not always non-empty. -/
theorem ask_success_response_cex :
    ask (.json (.obj [("text", JsonVal.str "abcdefghijklmnopqrst"),
        ("question", JsonVal.str "Why?")])) (.ok "") =
      { status := 200
        body := .obj [("answer", .str "")]
        apiCalls := [ask_model_request (promptTemplate "abcdefghijklmnopqrst" "Why?")] } := rfl

/-- Claim C6: a validation-passing request makes exactly one outbound call,
built deterministically: the templated prompt over the trimmed fields, the
constant system instruction, model "gpt-4o-mini", temperature 0.2 and a
300-token default budget. -/
theorem ask_outbound_request (fields : List (String × JsonVal)) (text question : String)
    (upstream : Except String String)
    (ht : normalizeField (getField fields "text") = .ok text)
    (hq : normalizeField (getField fields "question") = .ok question)
    (h1 : 20 ≤ pyLen text) (h2 : pyLen text ≤ 5000)
    (h3 : 3 ≤ pyLen question) (h4 : pyLen question ≤ 300) :
    (ask (.json (.obj fields)) upstream).apiCalls =
      [{ model := "gpt-4o-mini"
         systemContent := SYSTEM_PROMPT
         userContent := promptTemplate text question
         max_tokens := 300
         temperature := 2 / 10 }] := by
  rw [ask_obj_eq fields text question upstream ht hq,
    askBody_valid text question upstream h1 h2 h3 h4]
  rcases upstream with e | c <;> rfl

/-- Witness for C6 at a concrete valid request. -/
theorem ask_outbound_request_witness :
    (ask (.json (.obj [("text", JsonVal.str "abcdefghijklmnopqrst"),
        ("question", JsonVal.str "Why?")])) (.ok "fine")).apiCalls =
      [{ model := "gpt-4o-mini"
         systemContent := SYSTEM_PROMPT
         userContent := promptTemplate "abcdefghijklmnopqrst" "Why?"
         max_tokens := 300
         temperature := 2 / 10 }] :=
  ask_outbound_request [("text", JsonVal.str "abcdefghijklmnopqrst"),
      ("question", JsonVal.str "Why?")] "abcdefghijklmnopqrst" "Why?" (.ok "fine") rfl rfl
    (by decide) (by decide) (by decide) (by decide)
